import Mathlib

/-!
Verification of the dc_screamlit repository against its specification.

The repository ships a single source file, src/app.py: a Streamlit
dashboard that loads per-hour activity spreadsheets from Cloudflare R2
and renders metrics, rankings and a searchable user table.  The
ingestion pipeline described by the specification (window scheduler,
list locator, detail/comment fetcher, aggregation store) is not part of
the repository's files; where a claim concerns it, the relevant
behaviour is modelled from the specification's own words and the
definition says so in its doc comment.

Pandas data frames are modelled as lists of records, machine time as
natural numbers, and the storage/network environment as explicit input
values describing what each external call would return.
-/

/-- A row of one parsed spreadsheet, before load-time post-processing.
Field names transliterate the Korean column names of src/app.py:
date/hour stand for the date and hour parts of 수집시간 (collection
time), nickname for 닉네임, idIP for ID(IP), userType for 유저타입,
postCount for 작성글수, commentCount for 작성댓글수. -/
structure RawRow where
  date : Nat
  hour : Nat
  nickname : String
  idIP : String
  userType : String
  postCount : Nat
  commentCount : Nat
deriving DecidableEq

/-- A row of the final data frame returned by load_data_from_r2: a raw
row plus the derived column 총활동수 (totalActivity) added at
src/app.py:178. -/
structure Row where
  date : Nat
  hour : Nat
  nickname : String
  idIP : String
  userType : String
  postCount : Nat
  commentCount : Nat
  totalActivity : Nat
deriving DecidableEq

/-- The post-processing applied to every concatenated row at
src/app.py:176-178 in the schema-conforming case: 수집시간 is parsed
(the identity on the already-structured date/hour fields of a RawRow)
and 총활동수 is set to 작성글수 + 작성댓글수.  The raising behaviour of
pd.to_datetime on cells it cannot convert is not visible on RawRow;
it is modelled by parseSheetRow / load_data_from_r2_x below. -/
def mkFinal (r : RawRow) : Row :=
  { date := r.date, hour := r.hour, nickname := r.nickname, idIP := r.idIP,
    userType := r.userType, postCount := r.postCount,
    commentCount := r.commentCount,
    totalActivity := r.postCount + r.commentCount }

/-- The four storage credentials read from st.secrets at
src/app.py:129-132; a missing key raises KeyError, modelled by none. -/
structure Secrets where
  accessKeyId : Option String
  secretAccessKey : Option String
  accountId : Option String
  bucketName : Option String
deriving DecidableEq

/-- Whether any of the four st.secrets lookups of src/app.py:129-132
raises KeyError. -/
def hasMissingSecret (s : Secrets) : Bool :=
  s.accessKeyId.isNone || s.secretAccessKey.isNone ||
  s.accountId.isNone || s.bucketName.isNone

/-- One object of the R2 bucket listing.  body is what fetch_and_parse
(src/app.py:158-165) would obtain for this key: some rows when
get_object + read + read_excel succeed, none when any of them raises
(the except branch at src/app.py:164 returns None).  Typing the parsed
body as RawRows restricts this model to schema-conforming workbooks;
workbooks whose cells defeat the unguarded post-processing of
src/app.py:176-178 are covered by the general model S3ObjectX /
load_data_from_r2_x below. -/
structure S3Object where
  key : String
  body : Option (List RawRow)
deriving DecidableEq

/-- The outcome of the list_objects_v2 call at src/app.py:146: an
exception (err), a response without a Contents key, or a listing. -/
inductive ListObjectsResult where
  | err (msg : String)
  | okNoContents
  | ok (contents : List S3Object)
deriving DecidableEq

/-- The user-visible error messages load_data_from_r2 can emit via
st.error (src/app.py:134 and src/app.py:148). -/
inductive LoadError where
  | secretsError
  | r2ConnectError (msg : String)
deriving DecidableEq

/-- What one call of load_data_from_r2 produces: the returned data
frame as a list of rows, the st.error messages shown, and how many S3
API calls (list_objects_v2 / get_object) were issued — zero means no
data access happened. -/
structure LoadOutput where
  df : List Row
  errors : List LoadError
  s3Calls : Nat
deriving DecidableEq

/-- The filename test of src/app.py:154, f['Key'].endswith('.xlsx'),
expressed as a suffix test on the string's character list (so that it
evaluates inside the kernel). -/
def endsWithXlsx (s : String) : Bool :=
  ".xlsx".data.isSuffixOf s.data

/-- Shallow embedding of load_data_from_r2 (src/app.py:126-179) over
schema-conforming workbooks.  The external world is passed in as the
secrets present and the result the bucket listing would return; each
listed object carries the result its download/parse would produce.
Mirrors the source control flow: missing secret → error + empty frame
before any client is built; listing exception → error + empty frame;
no Contents / no .xlsx files / no successfully parsed file → empty
frame; otherwise the successful parses are concatenated and the
총활동수 column added.  This restriction is total; the uncaught raise
path of src/app.py:176-178 on malformed workbooks is modelled by
load_data_from_r2_x below. -/
def load_data_from_r2 (secrets : Secrets) (listing : ListObjectsResult) :
    LoadOutput :=
  if hasMissingSecret secrets then
    { df := [], errors := [.secretsError], s3Calls := 0 }
  else
    match listing with
    | .err m => { df := [], errors := [.r2ConnectError m], s3Calls := 1 }
    | .okNoContents => { df := [], errors := [], s3Calls := 1 }
    | .ok contents =>
      let files := contents.filter (fun f => endsWithXlsx f.key)
      if files.isEmpty then { df := [], errors := [], s3Calls := 1 }
      else
        let all_dfs := files.filterMap (fun f => f.body)
        if all_dfs.isEmpty then
          { df := [], errors := [], s3Calls := 1 + files.length }
        else
          { df := all_dfs.flatten.map mkFinal, errors := [],
            s3Calls := 1 + files.length }

/-- The page the top-level script renders after load_data_from_r2
returns (src/app.py:238-413): the dashboard when the frame is
non-empty, the informational message of src/app.py:413 otherwise.  The
script has no path that terminates the process; the exit constructor
exists so that absence can be stated. -/
inductive ScriptResult where
  | dashboard (df : List Row)
  | infoMessage
  | exit
deriving DecidableEq

/-- The top-level control flow of src/app.py:238-413 around the loaded
frame: if not df.empty render the dashboard, else show the info
message. -/
def mainScript (secrets : Secrets) (listing : ListObjectsResult) :
    ScriptResult :=
  let out := load_data_from_r2 secrets listing
  if out.df.isEmpty then .infoMessage else .dashboard out.df

/-- The date filter of src/app.py:251: rows of the loaded frame whose
수집시간 date equals the selected date. -/
def day_filtered_df (df : List Row) (selectedDate : Nat) : List Row :=
  df.filter (fun r => decide (r.date = selectedDate))

/-- The hour-range filter of src/app.py:253-259 applied on top of the
date filter: when the slider's end is 24 only the lower bound is
tested, otherwise the hour must lie in [startHour, endHour). -/
def filtered_df (df : List Row) (selectedDate startHour endHour : Nat) :
    List Row :=
  if endHour = 24 then
    (day_filtered_df df selectedDate).filter
      (fun r => decide (startHour ≤ r.hour))
  else
    (day_filtered_df df selectedDate).filter
      (fun r => decide (startHour ≤ r.hour) && decide (r.hour < endHour))

/-- The grouping key used by every groupby of the dashboard
(src/app.py:277, src/app.py:311, src/app.py:348): the triple
(닉네임, ID(IP), 유저타입). -/
def rowKey (r : Row) : String × String × String :=
  (r.nickname, r.idIP, r.userType)

/-- The distinct group keys of a frame, in order of first appearance
(the group count and group set do not depend on pandas' key ordering,
which is all the theorems below use). -/
def groupKeys (df : List Row) : List (String × String × String) :=
  (df.map rowKey).dedup

/-- Sum of 작성글수 over the rows of one group. -/
def sumPosts (df : List Row) (k : String × String × String) : Nat :=
  ((df.filter (fun r => decide (rowKey r = k))).map (fun r => r.postCount)).sum

/-- Sum of 작성댓글수 over the rows of one group. -/
def sumComments (df : List Row) (k : String × String × String) : Nat :=
  ((df.filter (fun r => decide (rowKey r = k))).map
    (fun r => r.commentCount)).sum

/-- Sum of 총활동수 over the rows of one group. -/
def sumTotal (df : List Row) (k : String × String × String) : Nat :=
  ((df.filter (fun r => decide (rowKey r = k))).map
    (fun r => r.totalActivity)).sum

/-- One aggregated record of ranking_df / user_list_df: the group key
columns restored by reset_index plus the summed activity columns. -/
structure GroupRec where
  nickname : String
  idIP : String
  userType : String
  totalActivity : Nat
  postCount : Nat
  commentCount : Nat
deriving DecidableEq

/-- The group key columns of an aggregated record. -/
def recKey (g : GroupRec) : String × String × String :=
  (g.nickname, g.idIP, g.userType)

/-- The aggregation of src/app.py:311: one summed record per distinct
(닉네임, ID(IP), 유저타입) triple of the filtered frame. -/
def ranking_df (df : List Row) : List GroupRec :=
  (groupKeys df).map (fun k =>
    { nickname := k.1, idIP := k.2.1, userType := k.2.2,
      totalActivity := sumTotal df k, postCount := sumPosts df k,
      commentCount := sumComments df k })

/-- The active-user metric of src/app.py:277: the number of groups of
the triple-keyed groupby. -/
def active_users (df : List Row) : Nat :=
  (groupKeys df).length

/-- The aggregation of src/app.py:348 before its sort by nickname: the
same triple-keyed groupby with the same summed columns; the sort_values
call only permutes records, so the per-identity record structure is the
one of ranking_df. -/
def user_list_df (df : List Row) : List GroupRec :=
  ranking_df df

/-- Page size of the user-search table, src/app.py:369. -/
def items_per_page : Nat := 15

/-- The page count of src/app.py:371, math.ceil(total_items / 15). -/
def total_pages (totalItems : Nat) : Nat :=
  (totalItems + items_per_page - 1) / items_per_page

/-- The stored-page guard of src/app.py:374: a stored page larger than
the current page count is reset to 1. -/
def clamp_page (page totalItems : Nat) : Nat :=
  if total_pages totalItems < page then 1 else page

/-- The displayed page of src/app.py:387-389: the slice
target_df.iloc[start_idx : start_idx + 15] at the clamped page. -/
def page_df (target_df : List GroupRec) (page : Nat) : List GroupRec :=
  let p := clamp_page page target_df.length
  let start_idx := (p - 1) * items_per_page
  (target_df.drop start_idx).take items_per_page

/-- Modelled from the spec: the ingestion pipeline (spec sections 2-4)
is not among the repository's files; only the dashboard that reads its
artifacts is.  A TimeWindow is the half-open hour interval of spec
section 3, with times in seconds; wstart/wend stand for the start/end
fields (end is a reserved word in Lean). -/
structure TimeWindow where
  wstart : Nat
  wend : Nat
deriving DecidableEq

/-- Modelled from the spec: the account-type classification of spec
section 3 (fixed / semi-fixed / anonymous). -/
inductive AccountType where
  | fixed
  | semiFixed
  | anonymous
deriving DecidableEq

/-- Modelled from the spec: the per-identity activity record of spec
section 3. -/
structure ActivityRecord where
  windowLabel : String
  latestNickname : String
  accountType : AccountType
  postCount : Nat
  commentCount : Nat
deriving DecidableEq

/-- Modelled from the spec: the aggregation store of spec section 4.4,
a map from identity key to activity record, embedded as an association
list. -/
abbrev Store := List (String × ActivityRecord)

/-- Modelled from the spec: create-or-increment of an identity's
postCount, with last-write-wins on a non-empty nickname observation
(spec section 3, ActivityRecord lifecycle). -/
def bumpPost (label key nick : String) (acct : AccountType) :
    Store → Store
  | [] => [(key, ⟨label, nick, acct, 1, 0⟩)]
  | (k, r) :: rest =>
    if k = key then
      (k, { r with
            latestNickname := if nick = "" then r.latestNickname else nick,
            postCount := r.postCount + 1 }) :: rest
    else
      (k, r) :: bumpPost label key nick acct rest

/-- Modelled from the spec: create-or-increment of an identity's
commentCount, with last-write-wins on a non-empty nickname
observation. -/
def bumpComment (label key nick : String) (acct : AccountType) :
    Store → Store
  | [] => [(key, ⟨label, nick, acct, 0, 1⟩)]
  | (k, r) :: rest =>
    if k = key then
      (k, { r with
            latestNickname := if nick = "" then r.latestNickname else nick,
            commentCount := r.commentCount + 1 }) :: rest
    else
      (k, r) :: bumpComment label key nick acct rest

/-- Sum of postCount over a store. -/
def totalPosts (s : Store) : Nat :=
  (s.map (fun kr => kr.2.postCount)).sum

/-- Sum of commentCount over a store. -/
def totalComments (s : Store) : Nat :=
  (s.map (fun kr => kr.2.commentCount)).sum

/-- Modelled from the spec: the detail-fetch boundary test of spec
section 4.3 — a post with publish timestamp t increments its
identity's postCount exactly when t lies in the half-open window
[start, end). -/
def recordPost (w : TimeWindow) (label key nick : String)
    (acct : AccountType) (t : Nat) (store : Store) : Store :=
  if w.wstart ≤ t ∧ t < w.wend then bumpPost label key nick acct store
  else store

/-- Modelled from the spec: comment timestamps carry no year (spec
section 4.3); the target window's year is prefixed, embedded as adding
the window year's epoch offset to the raw month/day/time offset. -/
def reconstructCommentTime (windowYearStart rawOffset : Nat) : Nat :=
  windowYearStart + rawOffset

/-- Modelled from the spec: the comment boundary test of spec section
4.3 — the reconstructed timestamp must lie in [start, end); a comment
reconstructing to exactly end is excluded. -/
def recordComment (w : TimeWindow) (windowYearStart : Nat)
    (label key nick : String) (acct : AccountType) (rawOffset : Nat)
    (store : Store) : Store :=
  let t := reconstructCommentTime windowYearStart rawOffset
  if w.wstart ≤ t ∧ t < w.wend then bumpComment label key nick acct store
  else store

/-- Modelled from the spec: one row of the listing consumed by the List
Locator (spec sections 4.2 and 6): a numeric id when the id parses, a
notice/survey/ad marker, and a publish timestamp when it parses. -/
structure ListingRow where
  rowId : Option Nat
  isNotice : Bool
  pubTime : Option Nat
deriving DecidableEq

/-- Modelled from the spec: the List Locator's scan state of spec
section 4.2 — running id bounds (0 meaning none found yet), the
consecutive-old-post counter, the ids already seen (step 2's
deduplication), and whether the termination heuristic has fired. -/
structure LocState where
  minId : Nat
  maxId : Nat
  oldCount : Nat
  seen : List Nat
  stopped : Bool
deriving DecidableEq

/-- The Locator's initial state. -/
def initLoc : LocState :=
  { minId := 0, maxId := 0, oldCount := 0, seen := [], stopped := false }

/-- Modelled from the spec: scanStart = start − 1h (spec section 3),
the lookback buffer handed to the Locator. -/
def scanStart (w : TimeWindow) : Nat :=
  w.wstart - 3600

/-- Modelled from the spec: processing of one listing row by the List
Locator, following spec section 4.2's steps in order: (1) reject
non-numeric ids and notice rows, (2) deduplicate by id, (3) skip rows
whose timestamp does not parse, (4) discard rows more than 24 hours
before start (pinned-post guard), (5) a timestamp in [scanStart, end)
updates the id bounds and resets the counter, (6) a timestamp strictly
before start increments the counter and stops the scan when it reaches
10, (7) a timestamp at or after end resets the counter. -/
def stepRow (w : TimeWindow) (st : LocState) (row : ListingRow) :
    LocState :=
  if st.stopped then st
  else
    match row.rowId with
    | none => st
    | some pid =>
      if row.isNotice then st
      else if pid ∈ st.seen then st
      else
        let st1 := { st with seen := pid :: st.seen }
        match row.pubTime with
        | none => st1
        | some t =>
          if t + 86400 < w.wstart then st1
          else if scanStart w ≤ t ∧ t < w.wend then
            { st1 with
              minId := if st1.minId = 0 then pid else min st1.minId pid,
              maxId := max st1.maxId pid,
              oldCount := 0 }
          else if t < w.wstart then
            let c := st1.oldCount + 1
            if 10 ≤ c then { st1 with oldCount := c, stopped := true }
            else { st1 with oldCount := c }
          else
            { st1 with oldCount := 0 }

/-- Modelled from the spec: the Locator's sequential scan over listing
rows in source order (spec section 4.2). -/
def runRows (w : TimeWindow) (rows : List ListingRow) (st : LocState) :
    LocState :=
  rows.foldl (stepRow w) st

/-- A run of n consecutive listing rows with fresh increasing ids
base, base+1, ..., all timestamped t: the shape of input the
termination-threshold property quantifies over. -/
def oldRows (n base t : Nat) : List ListingRow :=
  match n with
  | 0 => []
  | n + 1 => { rowId := some base, isNotice := false, pubTime := some t } ::
      oldRows n (base + 1) t

/-- Modelled from the spec: one exported row of the persistence
interface of spec section 6. -/
structure ExportRow where
  windowLabel : String
  nickname : String
  identity : String
  accountType : AccountType
  postCount : Nat
  commentCount : Nat
  totalActivity : Nat
deriving DecidableEq

/-- Modelled from the spec: the outcome of one window run as seen by
the scheduler's integrity gate (spec sections 4.1 and 4.3): the
FailureCounter's final value and the rows the aggregation store would
export. -/
structure WindowResult where
  failureCount : Nat
  rows : List ExportRow
deriving DecidableEq

/-- Modelled from the spec: the scheduler's walk over its pending
windows in order (spec section 4.1) with the integrity gate of spec
section 4.3: a window whose FailureCounter exceeds 10 has its rows
discarded and aborts the whole run (later windows are not attempted,
the Bool is false); otherwise the window's rows are persisted and the
run continues. -/
def runScheduler : List WindowResult → List (List ExportRow) × Bool
  | [] => ([], true)
  | wr :: rest =>
    if 10 < wr.failureCount then ([], false)
    else
      let out := runScheduler rest
      (wr.rows :: out.1, out.2)

/-- Concrete fixture: one spreadsheet row. -/
def exRaw : RawRow :=
  { date := 20250101, hour := 9, nickname := "userA", idIP := "1.2.3.4",
    userType := "고정닉", postCount := 2, commentCount := 3 }

/-- Concrete fixture: a complete credential set. -/
def exSecrets : Secrets :=
  { accessKeyId := some "k", secretAccessKey := some "s",
    accountId := some "a", bucketName := some "b" }

/-- Concrete fixture: a credential set with every key missing. -/
def noSecrets : Secrets :=
  { accessKeyId := none, secretAccessKey := none,
    accountId := none, bucketName := none }

/-- Concrete fixture: a bucket listing with one parseable workbook. -/
def exListing : ListObjectsResult :=
  .ok [{ key := "2025-01-01_09h.xlsx", body := some [exRaw] }]

/-- Concrete fixture: two loaded rows sharing the identifier/IP but
carrying different nicknames. -/
def cr1 : Row :=
  { date := 20250101, hour := 9, nickname := "nickA", idIP := "1.2.3.4",
    userType := "유동", postCount := 1, commentCount := 0,
    totalActivity := 1 }

/-- Concrete fixture: second row with the same ID(IP) as cr1 but a
different nickname. -/
def cr2 : Row :=
  { date := 20250101, hour := 9, nickname := "nickB", idIP := "1.2.3.4",
    userType := "유동", postCount := 0, commentCount := 2,
    totalActivity := 2 }

/-- Concrete fixture: one aggregated record. -/
def gRec : GroupRec :=
  { nickname := "nickA", idIP := "1.2.3.4", userType := "유동",
    totalActivity := 3, postCount := 1, commentCount := 2 }

/-- A spreadsheet row as read_excel actually returns it, before the
post-processing of src/app.py:176-178: the 수집시간 cell may hold a
value pd.to_datetime cannot convert (or be missing), modelled by
collectTime = none.  The conversion at src/app.py:176 runs on the
whole concatenated column outside every try, so one such cell makes
load_data_from_r2 raise to its caller. -/
structure SheetRow where
  collectTime : Option (Nat × Nat)
  nickname : String
  idIP : String
  userType : String
  postCount : Nat
  commentCount : Nat
deriving DecidableEq

/-- The per-row outcome of the post-processing at src/app.py:176-178
when it does not raise: a parseable 수집시간 cell yields the final row
with the 총활동수 column, exactly as mkFinal does on RawRow. -/
def parseSheetRow (r : SheetRow) : Option Row :=
  match r.collectTime with
  | none => none
  | some dh =>
    some { date := dh.1, hour := dh.2, nickname := r.nickname,
           idIP := r.idIP, userType := r.userType,
           postCount := r.postCount, commentCount := r.commentCount,
           totalActivity := r.postCount + r.commentCount }

/-- One object of the R2 bucket listing in the schema-general model:
body is none when download/parse raises (caught at src/app.py:164),
and otherwise the sheet rows exactly as read_excel returns them,
parseable or not. -/
structure S3ObjectX where
  key : String
  body : Option (List SheetRow)
deriving DecidableEq

/-- The outcome of the list_objects_v2 call at src/app.py:146 in the
schema-general model. -/
inductive ListObjectsResultX where
  | err (msg : String)
  | okNoContents
  | ok (contents : List S3ObjectX)
deriving DecidableEq

/-- The uncaught exception load_data_from_r2 can propagate to its
caller: pd.to_datetime at src/app.py:176 (equally the column accesses
and sum at src/app.py:176-178) raising on the concatenated frame —
these lines sit outside every try of the function. -/
inductive LoadExn where
  | toDatetimeError
deriving DecidableEq

/-- The files local of src/app.py:154 in the schema-general model. -/
def xlsxFiles (contents : List S3ObjectX) : List S3ObjectX :=
  contents.filter (fun f => endsWithXlsx f.key)

/-- The all_dfs local of src/app.py:170: bodies of the listed .xlsx
objects whose download/parse succeeded. -/
def parsedBodies (contents : List S3ObjectX) : List (List SheetRow) :=
  (xlsxFiles contents).filterMap (fun f => f.body)

/-- The final_df rows after pd.concat at src/app.py:175. -/
def concatRows (contents : List S3ObjectX) : List SheetRow :=
  (parsedBodies contents).flatten

/-- Shallow embedding of load_data_from_r2 (src/app.py:126-179) over
arbitrary workbooks.  Identical to load_data_from_r2 through the
guarded steps, but the post-concatenation processing of
src/app.py:176-178 is outside every try: if any concatenated row's
수집시간 cell is unconvertible, the call raises (Except.error) to its
caller instead of returning a frame. -/
def load_data_from_r2_x (secrets : Secrets) (listing : ListObjectsResultX) :
    Except LoadExn LoadOutput :=
  if hasMissingSecret secrets then
    .ok { df := [], errors := [.secretsError], s3Calls := 0 }
  else
    match listing with
    | .err m => .ok { df := [], errors := [.r2ConnectError m], s3Calls := 1 }
    | .okNoContents => .ok { df := [], errors := [], s3Calls := 1 }
    | .ok contents =>
      let files := xlsxFiles contents
      if files.isEmpty then .ok { df := [], errors := [], s3Calls := 1 }
      else
        let all_dfs := parsedBodies contents
        if all_dfs.isEmpty then
          .ok { df := [], errors := [], s3Calls := 1 + files.length }
        else
          let final_rows := concatRows contents
          if final_rows.all (fun r => r.collectTime.isSome) then
            .ok { df := final_rows.filterMap parseSheetRow, errors := [],
                  s3Calls := 1 + files.length }
          else
            .error .toDatetimeError

/-- Concrete fixture: a sheet row whose 수집시간 cell parses. -/
def goodSheetRow : SheetRow :=
  { collectTime := some (20250101, 9), nickname := "userA",
    idIP := "1.2.3.4", userType := "고정닉", postCount := 2,
    commentCount := 3 }

/-- Concrete fixture: a sheet row whose 수집시간 cell does not parse. -/
def badSheetRow : SheetRow :=
  { collectTime := none, nickname := "userB", idIP := "5.6.7.8",
    userType := "유동", postCount := 1, commentCount := 0 }

/-- Concrete fixture: a listing whose single workbook downloads and
parses successfully but contains an unconvertible 수집시간 cell. -/
def badListing : ListObjectsResultX :=
  .ok [{ key := "2025-01-01_10h.xlsx",
         body := some [goodSheetRow, badSheetRow] }]

/-- With complete credentials and a successful listing, the loaded
frame is exactly the concatenation of the successfully parsed
workbooks with the 총활동수 column added (the failed ones are
dropped by the except-None branch of fetch_and_parse). -/
lemma load_df_ok (secrets : Secrets) (contents : List S3Object)
    (h : hasMissingSecret secrets = false) :
    (load_data_from_r2 secrets (.ok contents)).df =
      ((contents.filter (fun f => endsWithXlsx f.key)).filterMap
        (fun f => f.body)).flatten.map mkFinal := by
  unfold load_data_from_r2
  rw [if_neg (by simp [h])]
  dsimp only
  by_cases h1 : (contents.filter (fun f => endsWithXlsx f.key)).isEmpty
  · rw [List.isEmpty_iff] at h1
    simp [h1]
  · rw [if_neg h1]
    by_cases h2 : ((contents.filter (fun f => endsWithXlsx f.key)).filterMap
        (fun f => f.body)).isEmpty
    · rw [List.isEmpty_iff] at h2
      simp [h2]
    · rw [if_neg h2]

/-- The loaded frame is always either empty or a mapped image of
mkFinal over raw rows. -/
lemma load_df_shape (secrets : Secrets) (listing : ListObjectsResult) :
    (load_data_from_r2 secrets listing).df = [] ∨
    ∃ rs : List RawRow,
      (load_data_from_r2 secrets listing).df = rs.map mkFinal := by
  by_cases h : hasMissingSecret secrets = true
  · left
    unfold load_data_from_r2
    rw [if_pos h]
  · rw [Bool.not_eq_true] at h
    cases listing with
    | err m =>
      left
      unfold load_data_from_r2
      rw [if_neg (by simp [h])]
    | okNoContents =>
      left
      unfold load_data_from_r2
      rw [if_neg (by simp [h])]
    | ok contents =>
      right
      exact ⟨_, load_df_ok secrets contents h⟩

/-- Claim C1: every row of the loaded frame satisfies
총활동수 = 작성글수 + 작성댓글수, because the column is computed as
that sum at src/app.py:178 on the concatenated frame. -/
theorem load_total_activity (secrets : Secrets) (listing : ListObjectsResult)
    (r : Row) (hr : r ∈ (load_data_from_r2 secrets listing).df) :
    r.totalActivity = r.postCount + r.commentCount := by
  rcases load_df_shape secrets listing with h | ⟨rs, h⟩
  · rw [h] at hr
    cases hr
  · rw [h] at hr
    rcases List.mem_map.mp hr with ⟨raw, _, rfl⟩
    rfl

/-- Witness for C1: a concrete one-workbook listing whose loaded row
satisfies the sum identity. -/
theorem load_total_activity_witness :
    mkFinal exRaw ∈ (load_data_from_r2 exSecrets exListing).df ∧
    (mkFinal exRaw).totalActivity =
      (mkFinal exRaw).postCount + (mkFinal exRaw).commentCount := by
  have hmem : mkFinal exRaw ∈ (load_data_from_r2 exSecrets exListing).df := by
    unfold exListing
    rw [load_df_ok exSecrets _ (by decide)]
    simp [show endsWithXlsx "2025-01-01_09h.xlsx" = true from by decide]
  exact ⟨hmem, load_total_activity exSecrets exListing (mkFinal exRaw) hmem⟩

/-- Counterexample for C10: with full credentials and a listing whose
single workbook downloads and parses successfully but holds one
unconvertible 수집시간 cell, load_data_from_r2 raises to its caller
(the unguarded pd.to_datetime of src/app.py:176) instead of degrading
to a table. -/
theorem load_raises_cex :
    hasMissingSecret exSecrets = false ∧
    load_data_from_r2_x exSecrets badListing =
      Except.error LoadExn.toDatetimeError := by
  constructor
  · decide
  · rfl

/-- Claim C10 as amended: every fetch-level failure degrades to an
empty frame — missing credentials, a failed listing, a Contents-less
response, no .xlsx objects, or no successfully parsed object — and
objects that fail to download/parse are silently dropped while the
surviving workbooks are concatenated into the result; but the
function is not raise-free: the post-concatenation processing of
src/app.py:176-178 sits outside every try, so when some concatenated
row's 수집시간 cell cannot be converted the call raises to its
caller. -/
theorem load_degrades_or_raises (secrets : Secrets)
    (listing : ListObjectsResultX) :
    (hasMissingSecret secrets = true →
      load_data_from_r2_x secrets listing =
        .ok { df := [], errors := [LoadError.secretsError], s3Calls := 0 }) ∧
    (hasMissingSecret secrets = false →
      (∀ m, listing = .err m →
        load_data_from_r2_x secrets listing =
          .ok { df := [], errors := [LoadError.r2ConnectError m],
                s3Calls := 1 }) ∧
      (listing = .okNoContents →
        load_data_from_r2_x secrets listing =
          .ok { df := [], errors := [], s3Calls := 1 }) ∧
      (∀ contents, listing = .ok contents →
        (xlsxFiles contents = [] →
          load_data_from_r2_x secrets listing =
            .ok { df := [], errors := [], s3Calls := 1 }) ∧
        (parsedBodies contents = [] → xlsxFiles contents ≠ [] →
          load_data_from_r2_x secrets listing =
            .ok { df := [], errors := [],
                  s3Calls := 1 + (xlsxFiles contents).length }) ∧
        (parsedBodies contents ≠ [] →
          (concatRows contents).all (fun r => r.collectTime.isSome) = true →
          load_data_from_r2_x secrets listing =
            .ok { df := (concatRows contents).filterMap parseSheetRow,
                  errors := [],
                  s3Calls := 1 + (xlsxFiles contents).length }) ∧
        ((concatRows contents).all (fun r => r.collectTime.isSome) = false →
          load_data_from_r2_x secrets listing =
            .error LoadExn.toDatetimeError))) := by
  constructor
  · intro h
    unfold load_data_from_r2_x
    rw [if_pos h]
  · intro hms
    refine ⟨?_, ?_, ?_⟩
    · rintro m rfl
      unfold load_data_from_r2_x
      rw [if_neg (by simp [hms])]
    · rintro rfl
      unfold load_data_from_r2_x
      rw [if_neg (by simp [hms])]
    · rintro contents rfl
      refine ⟨?_, ?_, ?_, ?_⟩
      · intro hfe
        unfold load_data_from_r2_x
        rw [if_neg (by simp [hms])]
        dsimp only
        rw [if_pos (by rw [List.isEmpty_iff]; exact hfe)]
      · intro hpe hfne
        unfold load_data_from_r2_x
        rw [if_neg (by simp [hms])]
        dsimp only
        rw [if_neg (by rw [List.isEmpty_iff]; exact hfne),
          if_pos (by rw [List.isEmpty_iff]; exact hpe)]
      · intro hpne hall
        have hfne : xlsxFiles contents ≠ [] := by
          intro hf
          apply hpne
          unfold parsedBodies
          rw [hf]
          rfl
        unfold load_data_from_r2_x
        rw [if_neg (by simp [hms])]
        dsimp only
        rw [if_neg (by rw [List.isEmpty_iff]; exact hfne),
          if_neg (by rw [List.isEmpty_iff]; exact hpne),
          if_pos hall]
      · intro hallf
        have hcne : concatRows contents ≠ [] := by
          intro hc
          rw [hc] at hallf
          simp at hallf
        have hpne : parsedBodies contents ≠ [] := by
          intro hp
          apply hcne
          unfold concatRows
          rw [hp]
          rfl
        have hfne : xlsxFiles contents ≠ [] := by
          intro hf
          apply hpne
          unfold parsedBodies
          rw [hf]
          rfl
        unfold load_data_from_r2_x
        rw [if_neg (by simp [hms])]
        dsimp only
        rw [if_neg (by rw [List.isEmpty_iff]; exact hfne),
          if_neg (by rw [List.isEmpty_iff]; exact hpne),
          if_neg (by rw [hallf]; simp)]

/-- Counterexample for C2: with every credential missing the script
does not exit — it renders the informational no-data page, so the
claimed fatal process exit does not happen. -/
theorem missing_secret_no_exit_cex :
    hasMissingSecret noSecrets = true ∧
    mainScript noSecrets ListObjectsResult.okNoContents ≠
      ScriptResult.exit := by
  constructor
  · decide
  · decide

/-- Claim C2 as amended: when any of the four storage credentials is
missing, load_data_from_r2 reports the secrets-configuration error and
returns the empty frame after zero storage API calls (no data access,
no retry) — but the process does not exit: the script proceeds to
render the informational page. -/
theorem missing_secret_degrades (secrets : Secrets)
    (listing : ListObjectsResult) (h : hasMissingSecret secrets = true) :
    load_data_from_r2 secrets listing =
      { df := [], errors := [LoadError.secretsError], s3Calls := 0 } ∧
    mainScript secrets listing = ScriptResult.infoMessage := by
  have hload : load_data_from_r2 secrets listing =
      { df := [], errors := [LoadError.secretsError], s3Calls := 0 } := by
    unfold load_data_from_r2
    rw [if_pos h]
  refine ⟨hload, ?_⟩
  unfold mainScript
  rw [hload]
  rfl

/-- Witness for the amended C2 at the all-missing credential set. -/
theorem missing_secret_degrades_witness :
    load_data_from_r2 noSecrets ListObjectsResult.okNoContents =
      { df := [], errors := [LoadError.secretsError], s3Calls := 0 } ∧
    mainScript noSecrets ListObjectsResult.okNoContents =
      ScriptResult.infoMessage :=
  missing_secret_degrades noSecrets ListObjectsResult.okNoContents
    (by decide)

/-- Counterexample for C3: two rows with the same identifier/IP but
different nicknames are aggregated into two distinct records (and
counted as two active users), so the grouping key is not the
identifier/IP alone. -/
theorem identity_key_cex :
    active_users [cr1, cr2] = 2 ∧
    ((ranking_df [cr1, cr2]).filter
      (fun g => decide (g.idIP = "1.2.3.4"))).length = 2 := by
  constructor
  · decide
  · decide

/-- Claim C3 as amended: every dashboard aggregation groups by the full
triple (닉네임, ID(IP), 유저타입), so there is exactly one aggregated
record per distinct triple of the frame — the record keys are pairwise
distinct, every row's triple owns a record, and the active-user count
equals the record count; rows sharing the identifier/IP but differing
in nickname or account type fall into different records. -/
theorem grouping_key_triple (df : List Row) :
    ((ranking_df df).map recKey).Nodup ∧
    (∀ r ∈ df, rowKey r ∈ (ranking_df df).map recKey) ∧
    active_users df = (ranking_df df).length ∧
    user_list_df df = ranking_df df := by
  have hmap : (ranking_df df).map recKey = groupKeys df := by
    unfold ranking_df
    rw [List.map_map]
    exact List.map_id _
  refine ⟨?_, ?_, ?_, rfl⟩
  · rw [hmap]
    exact List.nodup_dedup _
  · intro r hr
    rw [hmap]
    exact List.mem_dedup.mpr (List.mem_map_of_mem rowKey hr)
  · unfold active_users ranking_df
    rw [List.length_map]

/-- Claim C8: membership in the filtered frame is characterised by the
selected date together with the half-open hour test, the upper bound
being waived exactly when the slider end is 24; consequently the
default range (0, 24) keeps every row of the selected date. -/
theorem hour_filter_half_open (df : List Row) (d s e : Nat) :
    (∀ r : Row, r ∈ filtered_df df d s e ↔
      r ∈ df ∧ r.date = d ∧ s ≤ r.hour ∧ (e = 24 ∨ r.hour < e)) ∧
    filtered_df df d 0 24 = day_filtered_df df d := by
  constructor
  · intro r
    unfold filtered_df day_filtered_df
    by_cases he : e = 24
    · rw [if_pos he]
      simp only [List.mem_filter, decide_eq_true_eq, he, Bool.and_eq_true]
      tauto
    · rw [if_neg he]
      simp only [List.mem_filter, decide_eq_true_eq, he, Bool.and_eq_true]
      tauto
  · unfold filtered_df
    rw [if_pos rfl]
    apply List.filter_eq_self.mpr
    intro r _
    simp

/-- Claim C9: the displayed user-search page always holds at most 15
records; for a non-empty result set it is never empty (the slice stays
in range), and a stored page beyond the page count falls back to the
first page. -/
theorem pagination_in_range (target_df : List GroupRec) (page : Nat)
    (h : target_df ≠ []) :
    (page_df target_df page).length ≤ items_per_page ∧
    page_df target_df page ≠ [] ∧
    (total_pages target_df.length < page →
      page_df target_df page = target_df.take items_per_page) := by
  have hlen : 0 < target_df.length := List.length_pos.mpr h
  refine ⟨?_, ?_, ?_⟩
  · unfold page_df
    rw [List.length_take]
    exact min_le_left _ _
  · rw [← List.length_pos]
    unfold page_df clamp_page
    have hdiv : total_pages target_df.length * 15 ≤ target_df.length + 14 := by
      unfold total_pages items_per_page
      exact Nat.div_mul_le_self _ _
    have htp1 : 1 ≤ total_pages target_df.length := by
      unfold total_pages items_per_page
      rw [Nat.le_div_iff_mul_le (by omega)]
      omega
    split
    · rw [List.length_take, List.length_drop]
      unfold items_per_page
      omega
    · rename_i hle
      rw [Nat.not_lt] at hle
      rw [List.length_take, List.length_drop]
      unfold items_per_page at hdiv ⊢
      omega
  · intro hgt
    unfold page_df clamp_page
    rw [if_pos hgt]
    simp

/-- Witness for C9: a one-record result set with a stale stored page
falls back to a full, in-range first page. -/
theorem pagination_in_range_witness :
    (page_df [gRec] 7).length ≤ items_per_page ∧
    page_df [gRec] 7 ≠ [] ∧
    (total_pages [gRec].length < 7 →
      page_df [gRec] 7 = [gRec].take items_per_page) :=
  pagination_in_range [gRec] 7 (by decide)

/-- Bumping an identity's postCount adds exactly one to the store's
post total, whether the record already exists or is created. -/
lemma totalPosts_bumpPost (label key nick : String) (acct : AccountType)
    (s : Store) :
    totalPosts (bumpPost label key nick acct s) = totalPosts s + 1 := by
  induction s with
  | nil => rfl
  | cons hd tl ih =>
    obtain ⟨k, r⟩ := hd
    by_cases hk : k = key
    · simp only [bumpPost, if_pos hk, totalPosts, List.map_cons, List.sum_cons]
      omega
    · simp only [bumpPost, if_neg hk, totalPosts, List.map_cons,
        List.sum_cons] at ih ⊢
      omega

/-- Claim C4: time boundaries are half-open [start, end) — a post
timestamped exactly at the window's start is counted (the store's post
total grows by one), and a comment whose reconstructed timestamp is
exactly the window's end is excluded (the store is unchanged), for
every window, identity and store. -/
theorem boundary_half_open (w : TimeWindow) (windowYearStart : Nat)
    (label key nick : String) (acct : AccountType) (store : Store)
    (h : w.wstart < w.wend) :
    totalPosts (recordPost w label key nick acct w.wstart store) =
      totalPosts store + 1 ∧
    (∀ rawOffset,
      reconstructCommentTime windowYearStart rawOffset = w.wend →
      recordComment w windowYearStart label key nick acct rawOffset store =
        store) := by
  constructor
  · unfold recordPost
    rw [if_pos ⟨le_refl _, h⟩]
    exact totalPosts_bumpPost label key nick acct store
  · intro rawOffset hro
    unfold recordComment
    rw [if_neg ?_]
    rw [hro]
    intro hc
    omega

/-- Witness for C4 at a concrete one-hour window, identity and empty
store. -/
theorem boundary_half_open_witness :
    totalPosts (recordPost ⟨3600, 7200⟩ "2025-01-01_00h" "1.2.3.4" "nickA"
      AccountType.anonymous 3600 []) = totalPosts [] + 1 ∧
    (∀ rawOffset, reconstructCommentTime 0 rawOffset = (7200 : Nat) →
      recordComment ⟨3600, 7200⟩ 0 "2025-01-01_00h" "1.2.3.4" "nickA"
        AccountType.anonymous rawOffset [] = []) :=
  boundary_half_open ⟨3600, 7200⟩ 0 "2025-01-01_00h" "1.2.3.4" "nickA"
    AccountType.anonymous [] (by decide)

/-- Claim C7: the scheduler's integrity gate — a window whose
FailureCounter ends at 10 or below has its rows persisted and the
remaining windows processed, while a count of 11 or more discards the
window's rows, persists nothing and aborts the whole run, whatever the
later windows hold. -/
theorem failure_gate (wr : WindowResult) (rest : List WindowResult) :
    (wr.failureCount ≤ 10 →
      runScheduler (wr :: rest) =
        (wr.rows :: (runScheduler rest).1, (runScheduler rest).2)) ∧
    (11 ≤ wr.failureCount → runScheduler (wr :: rest) = ([], false)) := by
  have hrec : runScheduler (wr :: rest) =
      if 10 < wr.failureCount then ([], false)
      else (wr.rows :: (runScheduler rest).1, (runScheduler rest).2) := rfl
  constructor
  · intro h
    rw [hrec, if_neg (by omega)]
  · intro h
    rw [hrec, if_pos (by omega)]

/-- Processing one fresh, non-notice row whose timestamp lies before
the lookback buffer but within the 24-hour pinned-post horizon: the
Locator registers the id, increments the consecutive-old-post counter
and stops exactly when the counter reaches 10. -/
lemma stepRow_old (w : TimeWindow) (st : LocState) (pid t : Nat)
    (h0 : st.stopped = false) (h1 : pid ∉ st.seen)
    (hpin : w.wstart ≤ t + 86400) (hbuf : t < w.wstart - 3600) :
    stepRow w st { rowId := some pid, isNotice := false, pubTime := some t } =
      if 10 ≤ st.oldCount + 1 then
        { st with
          seen := pid :: st.seen
          oldCount := st.oldCount + 1
          stopped := true }
      else
        { st with
          seen := pid :: st.seen
          oldCount := st.oldCount + 1 } := by
  have hnotpin : ¬ (t + 86400 < w.wstart) := by omega
  have hnotscan : ¬ (scanStart w ≤ t ∧ t < w.wend) := by
    unfold scanStart
    omega
  have hlt : t < w.wstart := by omega
  simp only [stepRow, h0, Bool.false_eq_true, if_false, Bool.false_eq_true,
    ite_false]
  rw [if_neg h1, if_neg hnotpin, if_neg hnotscan, if_pos hlt]

/-- Feeding the Locator n fresh consecutive rows, all timestamped in
the counting zone, from a non-stopped state whose counter plus n stays
below the threshold: the scan does not stop, the counter grows by
exactly n, the id bounds are untouched and every seen id stays below
base + n. -/
lemma oldRun (w : TimeWindow) (t : Nat)
    (hpin : w.wstart ≤ t + 86400) (hbuf : t < w.wstart - 3600) :
    ∀ (n base : Nat) (st : LocState), st.stopped = false →
      (∀ j ∈ st.seen, j < base) → st.oldCount + n ≤ 9 →
      (runRows w (oldRows n base t) st).stopped = false ∧
      (runRows w (oldRows n base t) st).oldCount = st.oldCount + n ∧
      (runRows w (oldRows n base t) st).minId = st.minId ∧
      (runRows w (oldRows n base t) st).maxId = st.maxId ∧
      (∀ j ∈ (runRows w (oldRows n base t) st).seen, j < base + n) := by
  intro n
  induction n with
  | zero =>
    intro base st h0 hseen hcnt
    have h00 : runRows w (oldRows 0 base t) st = st := rfl
    rw [h00]
    refine ⟨h0, by omega, rfl, rfl, ?_⟩
    intro j hj
    have := hseen j hj
    omega
  | succ n ih =>
    intro base st h0 hseen hcnt
    have hfresh : base ∉ st.seen := fun hmem => by
      have := hseen base hmem
      omega
    have hstep := stepRow_old w st base t h0 hfresh hpin hbuf
    rw [if_neg (by omega)] at hstep
    have hrw : runRows w (oldRows (n + 1) base t) st =
        runRows w (oldRows n (base + 1) t)
          { st with
            seen := base :: st.seen
            oldCount := st.oldCount + 1 } := by
      show runRows w
        ({ rowId := some base, isNotice := false, pubTime := some t } ::
          oldRows n (base + 1) t) st = _
      unfold runRows
      rw [List.foldl_cons, hstep]
    have hseen1 : ∀ j ∈ ({ st with
        seen := base :: st.seen
        oldCount := st.oldCount + 1 } : LocState).seen, j < base + 1 := by
      intro j hj
      rcases List.mem_cons.mp hj with h | h
      · omega
      · have := hseen j h
        omega
    have hrest := ih (base + 1)
      { st with
        seen := base :: st.seen
        oldCount := st.oldCount + 1 }
      h0 hseen1 (by show st.oldCount + 1 + n ≤ 9; omega)
    rw [hrw]
    refine ⟨hrest.1, ?_, hrest.2.2.1, hrest.2.2.2.1, ?_⟩
    · rw [hrest.2.1]
      show st.oldCount + 1 + n = st.oldCount + (n + 1)
      omega
    · intro j hj
      have := hrest.2.2.2.2 j hj
      omega

/-- A run of n + 1 consecutive fresh rows splits as the first n rows
followed by the row with id base + n. -/
lemma oldRows_snoc (t : Nat) : ∀ (n base : Nat),
    oldRows (n + 1) base t =
      oldRows n base t ++
        [{ rowId := some (base + n), isNotice := false,
           pubTime := some t }] := by
  intro n
  induction n with
  | zero =>
    intro base
    simp [oldRows]
  | succ n ih =>
    intro base
    rw [show oldRows (n + 1 + 1) base t =
      { rowId := some base, isNotice := false, pubTime := some t } ::
        oldRows (n + 1) (base + 1) t from rfl]
    rw [ih (base + 1)]
    rw [show oldRows (n + 1) base t =
      { rowId := some base, isNotice := false, pubTime := some t } ::
        oldRows n (base + 1) t from rfl]
    rw [List.cons_append]
    rw [show base + 1 + n = base + (n + 1) from by omega]

/-- Counterexample for C5: a listing of ten consecutive fresh posts,
every one timestamped strictly before the window's start (all lie in
the one-hour lookback buffer), after which the Locator has not
stopped — the 10th consecutive pre-start post does not stop the scan
as the claim states. -/
theorem locator_threshold_cex :
    ((oldRows 10 1 99999).all
      (fun r => decide (r.pubTime.getD 0 <
        (⟨100000, 103600⟩ : TimeWindow).wstart))) = true ∧
    (runRows ⟨100000, 103600⟩ (oldRows 10 1 99999) initLoc).stopped =
      false := by
  constructor
  · decide
  · decide

/-- Claim C5 as amended: the posts the termination heuristic counts
are those timestamped before the lookback boundary scanStart =
start − 1h (and within the 24-hour pinned horizon); from any
non-stopped state with a zero counter, nine consecutive such posts do
not stop the scan while a tenth stops it immediately.  Posts in
[scanStart, start) reset the counter instead of incrementing it, so a
run of posts merely strictly before start need not stop the scan. -/
theorem locator_threshold (w : TimeWindow) (t base : Nat) (st : LocState)
    (hpin : w.wstart ≤ t + 86400) (hbuf : t < w.wstart - 3600)
    (h0 : st.stopped = false) (hc : st.oldCount = 0)
    (hseen : ∀ j ∈ st.seen, j < base) :
    (runRows w (oldRows 9 base t) st).stopped = false ∧
    (runRows w (oldRows 10 base t) st).stopped = true := by
  have h9 := oldRun w t hpin hbuf 9 base st h0 hseen (by omega)
  refine ⟨h9.1, ?_⟩
  rw [show (10 : Nat) = 9 + 1 from rfl, oldRows_snoc t 9 base]
  show (List.foldl (stepRow w) st
    (oldRows 9 base t ++
      [{ rowId := some (base + 9), isNotice := false,
         pubTime := some t }])).stopped = true
  rw [List.foldl_append]
  have hfresh : base + 9 ∉ (runRows w (oldRows 9 base t) st).seen := by
    intro hmem
    have := h9.2.2.2.2 _ hmem
    omega
  show (stepRow w (runRows w (oldRows 9 base t) st)
    { rowId := some (base + 9), isNotice := false,
      pubTime := some t }).stopped = true
  rw [stepRow_old w _ (base + 9) t h9.1 hfresh hpin hbuf]
  rw [if_pos (by rw [h9.2.1, hc])]

/-- Witness for the amended C5 at a concrete window and timestamp two
hours before the window's start. -/
theorem locator_threshold_witness :
    (runRows ⟨100000, 103600⟩ (oldRows 9 1 92800) initLoc).stopped =
      false ∧
    (runRows ⟨100000, 103600⟩ (oldRows 10 1 92800) initLoc).stopped =
      true :=
  locator_threshold ⟨100000, 103600⟩ 92800 1 initLoc (by decide)
    (by decide) (by decide) (by decide) (by decide)

/-- Claim C6: a listing row whose publish timestamp is more than 24
hours before the window's start never changes the running minId/maxId
bounds, the consecutive-old-post counter or the stopped flag, whatever
the current scan state (hence wherever the row sits in the listing). -/
theorem pinned_row_inert (w : TimeWindow) (st : LocState)
    (row : ListingRow) (t : Nat) (ht : row.pubTime = some t)
    (hpin : t + 86400 < w.wstart) :
    (stepRow w st row).minId = st.minId ∧
    (stepRow w st row).maxId = st.maxId ∧
    (stepRow w st row).oldCount = st.oldCount ∧
    (stepRow w st row).stopped = st.stopped := by
  obtain ⟨rid, notice, pt⟩ := row
  simp only at ht
  subst ht
  unfold stepRow
  by_cases h0 : st.stopped
  · rw [if_pos h0]
    exact ⟨rfl, rfl, rfl, rfl⟩
  · rw [if_neg h0]
    cases rid with
    | none => exact ⟨rfl, rfl, rfl, rfl⟩
    | some pid =>
      dsimp only
      by_cases hn : notice
      · rw [if_pos hn]
        exact ⟨rfl, rfl, rfl, rfl⟩
      · rw [if_neg hn]
        by_cases hd : pid ∈ st.seen
        · rw [if_pos hd]
          exact ⟨rfl, rfl, rfl, rfl⟩
        · rw [if_neg hd]
          rw [if_pos hpin]
          exact ⟨rfl, rfl, rfl, rfl⟩

/-- Witness for C6: a concrete pinned row (25 hours older than the
window start) processed from the initial state changes none of the
tracked quantities. -/
theorem pinned_row_inert_witness :
    (stepRow ⟨100000, 103600⟩ initLoc
      { rowId := some 7, isNotice := false,
        pubTime := some 10000 }).minId = initLoc.minId ∧
    (stepRow ⟨100000, 103600⟩ initLoc
      { rowId := some 7, isNotice := false,
        pubTime := some 10000 }).maxId = initLoc.maxId ∧
    (stepRow ⟨100000, 103600⟩ initLoc
      { rowId := some 7, isNotice := false,
        pubTime := some 10000 }).oldCount = initLoc.oldCount ∧
    (stepRow ⟨100000, 103600⟩ initLoc
      { rowId := some 7, isNotice := false,
        pubTime := some 10000 }).stopped = initLoc.stopped :=
  pinned_row_inert ⟨100000, 103600⟩ initLoc
    { rowId := some 7, isNotice := false, pubTime := some 10000 } 10000
    rfl (by decide)
